import Mathlib

/-!
Shallow embedding of the Monitoring-Alerting repository (two Python scripts:
`grafana_multi_api.py`, a Flask gateway exposing a Grafana SimpleJson query
protocol over three connector families, and `jsm-api-test.py`, a one-shot
Jira Service Management ticket filer).

Conventions of the embedding:
* Timestamps are epoch milliseconds, modelled as `Int` (the Python code parses
  ISO-8601 strings into `datetime` objects and immediately converts them to
  `int(dt.timestamp() * 1000)`; the ISO parsing itself belongs to the external
  `datetime` library and is outside the embedding, so requests carry the
  millisecond values directly).
* Numeric metric values are modelled as `Rat` (Python floats treated as exact
  rationals; no claim depends on float rounding).
* Each outbound network call is made explicit: API connectors take an oracle
  `HttpGet → Response` describing what the external service would answer, and
  return, next to their result, the list of HTTP requests they issued, so that
  "exactly one GET, timeout 10, no retry" is a provable statement.
* A caught Python exception (network error, missing JSON field) is an explicit
  constructor of the response type; the Lean functions are total, which models
  "never raises past its boundary".
-/

/-- A single outbound HTTP GET request: URL plus the `timeout=` argument
passed to `requests.get`. Query parameters are folded into `url`. -/
structure HttpGet where
  url : String
  timeout : Nat
deriving DecidableEq

/-- Value of `API_SOURCES['weather']` from the configuration block. -/
def API_SOURCES_weather : String := "https://api.open-meteo.com/v1/forecast"

/-- Value of `API_SOURCES['crypto']` from the configuration block. -/
def API_SOURCES_crypto : String := "https://api.coingecko.com/api/v3/simple/price"

/-- Value of `API_SOURCES['github']` from the configuration block. -/
def API_SOURCES_github : String := "https://api.github.com/repos"

/-- Boolean "is `p` a prefix of `l`" on character lists; the computational
content of Python's `str.startswith`. -/
def isPrefChars : List Char → List Char → Bool
  | [], _ => true
  | _ :: _, [] => false
  | a :: as, b :: bs => a = b && isPrefChars as bs

/-- Python's `metric.startswith(p)`. -/
def startsWithPy (s p : String) : Bool := isPrefChars p.data s.data

/-- Last dot-separated segment of a character list:
`metric.split('.')[-1]` in the source. -/
def lastSegChars : List Char → List Char
  | [] => []
  | c :: cs => if ('.' : Char) ∈ c :: cs then lastSegChars cs else c :: cs

/-- Python's `metric.split('.')[-1]`. -/
def lastSegment (s : String) : String := ⟨lastSegChars s.data⟩

/-- The timestamp generation loop of the `/query` handler:
`current = time_from; while current <= time_to: append(ms(current)); current += timedelta(minutes=5)`.
5 minutes = 300000 milliseconds. -/
def genTimestamps (fromMs toMs : Int) : List Int :=
  if h : fromMs ≤ toMs then
    fromMs :: genTimestamps (fromMs + 300000) toMs
  else []
termination_by (toMs + 300000 - fromMs).toNat
decreasing_by
  omega

/-- Python's `hash` on a nonnegative `int` (reduction modulo the Mersenne
prime 2^61 - 1); timestamps in this program are far below the modulus, so
`pyHash ts = ts`. Used by the cosmetic jitter in the `/query` handler. -/
def pyHash (n : Int) : Int := n % (2 ^ 61 - 1)

/-! ## APIDataCollector: the three API-family connectors

Each connector issues one `requests.get(..., timeout=10)` inside a
`try ... except Exception: return {}` block. The external service is an
oracle; `netError` stands for a raised `requests` exception (connection
failure, timeout, or a non-2xx status turned into an exception by
`raise_for_status`). A JSON field that may be absent is an `Option`; an
absent field raises `KeyError` inside the `try`, so the whole call
returns the empty mapping. -/

/-- The `current` object of the Open-Meteo response; each field is
`data['current'][...]`, absent fields modelled as `none`. -/
structure WeatherCurrent where
  temperature_2m : Option Rat
  wind_speed_10m : Option Rat
  relative_humidity_2m : Option Rat

/-- Outcome of the weather GET: a raised exception, or a JSON body whose
`current` object may be missing. -/
inductive WeatherResponse where
  | netError : WeatherResponse
  | body : Option WeatherCurrent → WeatherResponse

/-- The single GET issued by `fetch_weather_data`:
`requests.get(API_SOURCES['weather'], params=params, timeout=10)`. -/
def weatherRequest : HttpGet := ⟨API_SOURCES_weather, 10⟩

/-- Model of `APIDataCollector.fetch_weather_data` with its default coordinates.
Returns the metric mapping together with the list of HTTP GETs issued. -/
def fetch_weather_data (http : HttpGet → WeatherResponse) :
    List (String × Rat) × List HttpGet :=
  match http weatherRequest with
  | .netError => ([], [weatherRequest])
  | .body none => ([], [weatherRequest])
  | .body (some c) =>
    match c.temperature_2m, c.wind_speed_10m, c.relative_humidity_2m with
    | some tv, some wv, some hv =>
      ([("temperature", tv), ("wind_speed", wv), ("humidity", hv)], [weatherRequest])
    | _, _, _ => ([], [weatherRequest])

/-- Outcome of the CoinGecko GET. In the body case, `prices c` is:
`none` if `c not in data`; `some none` if `c in data` but `data[c]` has no
`usd` field; `some (some v)` if `data[c]['usd'] = v`. -/
inductive CryptoResponse where
  | netError : CryptoResponse
  | body : (String → Option (Option Rat)) → CryptoResponse

/-- The default `coins` argument of `fetch_crypto_prices`. -/
def defaultCoins : List String := ["bitcoin", "ethereum"]

/-- The single GET issued by `fetch_crypto_prices`, query parameters folded
into the URL. -/
def cryptoRequest (coins : List String) : HttpGet :=
  ⟨API_SOURCES_crypto ++ "?ids=" ++ String.intercalate "," coins ++
    "&vs_currencies=usd", 10⟩

/-- Model of `APIDataCollector.fetch_crypto_prices(coins)`. The dict comprehension
`{coin: data[coin]['usd'] for coin in coins if coin in data}` raises
`KeyError` (caught, yielding `{}`) as soon as some requested coin is present
without a `usd` field; otherwise it keeps, in request order, each requested
coin found in the response. -/
def fetch_crypto_prices (http : HttpGet → CryptoResponse) (coins : List String) :
    List (String × Rat) × List HttpGet :=
  match http (cryptoRequest coins) with
  | .netError => ([], [cryptoRequest coins])
  | .body prices =>
    if coins.all (fun c => prices c ≠ some none) then
      (coins.filterMap (fun c => (prices c).bind (fun e => e.map (fun v => (c, v)))),
        [cryptoRequest coins])
    else ([], [cryptoRequest coins])

/-- The GitHub repository JSON; each field is `data[...]`, absent fields
modelled as `none`. -/
structure GithubRepo where
  stargazers_count : Option Rat
  forks_count : Option Rat
  open_issues_count : Option Rat
  watchers_count : Option Rat

/-- Outcome of the GitHub GET. -/
inductive GithubResponse where
  | netError : GithubResponse
  | body : GithubRepo → GithubResponse

/-- The default `repo` argument of `fetch_github_stats`. -/
def defaultRepo : String := "torvalds/linux"

/-- The single GET issued by `fetch_github_stats`:
`requests.get(f"{API_SOURCES['github']}/{repo}", timeout=10)`. -/
def githubRequest (repo : String) : HttpGet := ⟨API_SOURCES_github ++ "/" ++ repo, 10⟩

/-- Model of `APIDataCollector.fetch_github_stats(repo)`. -/
def fetch_github_stats (http : HttpGet → GithubResponse) (repo : String) :
    List (String × Rat) × List HttpGet :=
  match http (githubRequest repo) with
  | .netError => ([], [githubRequest repo])
  | .body d =>
    match d.stargazers_count, d.forks_count, d.open_issues_count, d.watchers_count with
    | some sv, some fv, some ov, some wv =>
      ([("stars", sv), ("forks", fv), ("open_issues", ov), ("watchers", wv)],
        [githubRequest repo])
    | _, _, _, _ => ([], [githubRequest repo])

/-! ## PostgreSQLCollector

`self.conn` is `None` until `connect()` succeeds; a psycopg2 connection also
carries a `closed` flag. `fetch_metrics` / `fetch_time_series` reconnect when
`not self.conn or self.conn.closed` and wrap everything in
`try ... except Exception: return []`. The database itself is an oracle. -/

/-- The state of `self.conn`: `Python None`, an open handle, or a handle
whose `closed` attribute is truthy. -/
inductive ConnState where
  | noneC : ConnState
  | openC : ConnState
  | closedC : ConnState
deriving DecidableEq

/-- Condition `not self.conn or self.conn.closed` — the reconnect condition. -/
def needsConnect : ConnState → Bool
  | .noneC => true
  | .openC => false
  | .closedC => true

/-- One row of the `metrics` table as used by `fetch_metrics`. -/
structure MetricRow where
  metric_name : String
  metric_value : Rat
  timestamp : Int
deriving DecidableEq

/-- One row returned by the time-series query: `timestamp` (epoch ms of the
row's datetime) and `metric_value`. -/
structure TSRow where
  tsMs : Int
  value : Rat
deriving DecidableEq

/-- What the external database and driver would do: whether
`psycopg2.connect` succeeds, whether `cursor.execute` raises, and the rows
each query would return. `tsRows name fromMs toMs` are the rows of the
parameterized time-series query, `rowsFor q` those of a `fetch_metrics`
query string `q`. -/
structure PGEnv where
  connectOk : Bool
  queryOk : Bool
  rowsFor : String → List MetricRow
  tsRows : String → Int → Int → List TSRow

/-- The default SQL of `fetch_metrics` (whitespace normalized). -/
def defaultMetricsQuery : String :=
  "SELECT metric_name, metric_value, timestamp FROM metrics WHERE timestamp >= NOW() - INTERVAL '1 hour' ORDER BY timestamp DESC"

/-- Model of `PostgreSQLCollector.connect`: on success `self.conn` is a fresh open
handle; on failure `self.conn` keeps its previous value. -/
def pgConnect (env : PGEnv) (conn : ConnState) : ConnState :=
  if env.connectOk then .openC else conn

/-- The shared body of the two read paths: reconnect if needed, then run the
query; any exception (connect failed leaving `conn` as `None`/closed, so
`self.conn.cursor()` raises, or `execute` raising) is caught and yields `[]`.
Returns the rows together with the connection state after the call. -/
def pgRunQuery (α : Type) (env : PGEnv) (conn : ConnState) (queryOk : Bool)
    (rows : List α) : List α × ConnState :=
  let conn' := if needsConnect conn then pgConnect env conn else conn
  match conn' with
  | .openC => if queryOk then (rows, conn') else ([], conn')
  | _ => ([], conn')

/-- Model of `PostgreSQLCollector.fetch_metrics(query)`; `q = none` selects the
default SQL. -/
def fetch_metrics (env : PGEnv) (conn : ConnState) (q : Option String) :
    List MetricRow × ConnState :=
  let sql := match q with
    | some s => s
    | none => defaultMetricsQuery
  pgRunQuery MetricRow env conn env.queryOk (env.rowsFor sql)

/-- Model of `PostgreSQLCollector.fetch_time_series(metric_name, start_time, end_time)`. -/
def pg_fetch_time_series (env : PGEnv) (conn : ConnState) (name : String)
    (fromMs toMs : Int) : List TSRow × ConnState :=
  pgRunQuery TSRow env conn env.queryOk (env.tsRows name fromMs toMs)

/-! ## ElasticsearchCollector

The constructor builds the client and calls `self.es.ping()` inside
`try ... except`, so `self.connected` is `False` whenever construction or the
ping raises, or the ping answers `False`. No method ever writes
`self.connected` afterwards, and the fetch methods return the collector
unchanged, so a `False` flag persists for the process lifetime. Each fetch
returns, next to its result, the number of `self.es.search` calls issued. -/

/-- One terms-aggregation bucket: `key` and `doc_count`. -/
structure TermsBucket where
  key : String
  doc_count : Int

/-- The parts of the `fetch_log_metrics` search response that the code
reads: `hits.total.value`, the `error_count` filter's `doc_count`, and the
`log_levels` terms buckets. -/
structure ESLogResult where
  total_logs : Int
  error_count : Int
  level_buckets : List TermsBucket

/-- One date-histogram bucket of the time-series search: epoch-ms `key` and
the `avg_value` sub-aggregation (`none` when the bucket holds no value). -/
structure ESTimeBucket where
  key : Int
  avg_value : Option Rat

/-- The parts of the `fetch_application_metrics` search response that the
code reads. -/
structure ESAppResult where
  avg_response_time : Option Rat
  request_count : Int
  status_buckets : List (Int × Int)

/-- What the external search engine would do. A `none` search result stands
for a raised exception or a missing key in the response (both are caught and
yield the empty result). `ping` is `none` when construction or the ping
raises. -/
structure ESEnv where
  ping : Option Bool
  logSearch : String → String → Option ESLogResult
  tsSearch : String → String → Int → Int → Option (List ESTimeBucket)
  appSearch : String → Option ESAppResult

/-- The collector's state after `__init__`: whether `self.es` is a client
(`true`) or `None`, and the `self.connected` flag. -/
structure ESCollector where
  esSome : Bool
  connected : Bool
deriving DecidableEq

/-- Model of `ElasticsearchCollector.__init__`: liveness check at construction; on
any exception `self.es = None` and `self.connected = False`. -/
def esInit (env : ESEnv) : ESCollector :=
  match env.ping with
  | some b => ⟨true, b⟩
  | none => ⟨false, false⟩

/-- Default `index` argument of `fetch_log_metrics`. -/
def defaultLogIndex : String := "logs-*"

/-- Model of `ElasticsearchCollector.fetch_log_metrics(index, time_field)`. Returns
the metric mapping and the number of search calls issued. Bucket keys are
lower-cased into synthesized `logs_<level>` field names. -/
def fetch_log_metrics (env : ESEnv) (st : ESCollector) (index time_field : String) :
    List (String × Int) × Nat :=
  if !st.connected then ([], 0)
  else
    match env.logSearch index time_field with
    | none => ([], 1)
    | some r =>
      (("total_logs", r.total_logs) :: ("error_count", r.error_count) ::
        r.level_buckets.map (fun b => ("logs_" ++ b.key.toLower, b.doc_count)), 1)

/-- The `{'timestamp': bucket_key, 'value': avg or 0}` rows built from the
date-histogram buckets; `or 0` coalesces a missing average (and a zero
average) to `0`. -/
def esBucketRows (buckets : List ESTimeBucket) : List TSRow :=
  buckets.map (fun b => ⟨b.key, b.avg_value.getD 0⟩)

/-- Model of `ElasticsearchCollector.fetch_time_series(index, metric_field, start, end)`. -/
def es_fetch_time_series (env : ESEnv) (st : ESCollector) (index metric_field : String)
    (fromMs toMs : Int) : List TSRow × Nat :=
  if !st.connected then ([], 0)
  else
    match env.tsSearch index metric_field fromMs toMs with
    | none => ([], 1)
    | some buckets => (esBucketRows buckets, 1)

/-- Default `index` argument of `fetch_application_metrics`. -/
def defaultAppIndex : String := "metrics-*"

/-- Model of `ElasticsearchCollector.fetch_application_metrics(index)`. -/
def fetch_application_metrics (env : ESEnv) (st : ESCollector) (index : String) :
    List (String × Rat) × Nat :=
  if !st.connected then ([], 0)
  else
    match env.appSearch index with
    | none => ([], 1)
    | some r =>
      (("avg_response_time", r.avg_response_time.getD 0) ::
        ("request_count", (r.request_count : Rat)) ::
        r.status_buckets.map (fun b => ("status_" ++ toString b.1, (b.2 : Rat))), 1)

/-! ## The `/query` gateway endpoint

`query()` parses `{range:{from,to}, targets:[{target}]}`, generates the
5-minute timestamp grid, and dispatches each target on its dot-delimited
name. The module-level `pg_collector` connection may be re-established by a
`postgres.*` target, so the loop threads the connection state; the
module-level `es_collector` is never mutated. -/

/-- A parsed `/query` request body: the range endpoints in epoch ms and the
`target` string of each entry of `targets`. -/
structure QueryRequest where
  fromMs : Int
  toMs : Int
  targets : List String

/-- One entry of the response array: `{'target': ..., 'datapoints': ...}`,
a datapoint being a `[value, timestamp_ms]` pair. -/
structure TSResponse where
  target : String
  datapoints : List (Rat × Int)
deriving DecidableEq

/-- All external collaborators of the gateway. -/
structure GatewayEnv where
  weatherHttp : HttpGet → WeatherResponse
  cryptoHttp : HttpGet → CryptoResponse
  githubHttp : HttpGet → GithubResponse
  pg : PGEnv
  es : ESEnv

/-- The per-target dispatch body of the `for target in req['targets']` loop.
Returns the response entry and the `pg_collector` connection state after the
iteration. -/
def handleTarget (env : GatewayEnv) (timestamps : List Int) (fromMs toMs : Int)
    (pgConn : ConnState) (esColl : ESCollector) (metric : String) :
    TSResponse × ConnState :=
  if startsWithPy metric "api.weather." then
    let wd := (fetch_weather_data env.weatherHttp).1
    match List.lookup (lastSegment metric) wd with
    | some v =>
      (⟨metric, timestamps.map
        (fun ts => (v + ((pyHash ts % 10 - 5 : Int) : Rat) * (1 / 10 : Rat), ts))⟩,
        pgConn)
    | none => (⟨metric, []⟩, pgConn)
  else if startsWithPy metric "api.crypto." then
    let cd := (fetch_crypto_prices env.cryptoHttp defaultCoins).1
    match List.lookup (lastSegment metric) cd with
    | some v =>
      (⟨metric, timestamps.map
        (fun ts => (v + ((pyHash ts % 100 - 50 : Int) : Rat), ts))⟩, pgConn)
    | none => (⟨metric, []⟩, pgConn)
  else if startsWithPy metric "api.github." then
    let gd := (fetch_github_stats env.githubHttp defaultRepo).1
    match List.lookup (lastSegment metric) gd with
    | some v =>
      (⟨metric, timestamps.map
        (fun ts => (v + ((pyHash ts % 20 - 10 : Int) : Rat), ts))⟩, pgConn)
    | none => (⟨metric, []⟩, pgConn)
  else if startsWithPy metric "postgres." then
    let res := pg_fetch_time_series env.pg pgConn (lastSegment metric) fromMs toMs
    (⟨metric, res.1.map (fun r => (r.value, r.tsMs))⟩, res.2)
  else if startsWithPy metric "elastic." then
    let res := es_fetch_time_series env.es esColl defaultAppIndex
      (lastSegment metric) fromMs toMs
    (⟨metric, res.1.map (fun r => (r.value, r.tsMs))⟩, pgConn)
  else (⟨metric, []⟩, pgConn)

/-- The target loop: one response entry per target, in order, threading the
connection state. -/
def queryLoop (env : GatewayEnv) (timestamps : List Int) (fromMs toMs : Int)
    (esColl : ESCollector) : ConnState → List String → List TSResponse × ConnState
  | conn, [] => ([], conn)
  | conn, m :: ms =>
    let hd := handleTarget env timestamps fromMs toMs conn esColl m
    let tl := queryLoop env timestamps fromMs toMs esColl hd.2 ms
    (hd.1 :: tl.1, tl.2)

/-- The `/query` endpoint: generate the timestamp grid, run the target loop,
return the response array (and the connection state it leaves behind). -/
def query (env : GatewayEnv) (pgConn : ConnState) (esColl : ESCollector)
    (req : QueryRequest) : List TSResponse × ConnState :=
  queryLoop env (genTimestamps req.fromMs req.toMs) req.fromMs req.toMs esColl
    pgConn req.targets

/-! ## The ticket filer (`jsm-api-test.py`)

A straight-line script: parse `--email`, read env vars, overwrite `EMAIL`
with a hard-coded address, build the payload, POST it with basic auth, and
print the outcome. An env var that is unset is Python `None`, rendered as
the string `"None"` by the f-string building the URL. -/

/-- Environment variables read by the ticket filer. -/
structure TicketEnv where
  jsmSite : Option String
  apiToken : Option String
  projectKey : Option String

/-- The address assigned to `EMAIL` after the argument parse,
`EMAIL = "almir.alitovic@logicpulse.ba"`. -/
def hardcodedEmail : String := "almir.alitovic@logicpulse.ba"

/-- Python `str(x)` on an optional string, as an f-string renders it. -/
def pyStr : Option String → String
  | some s => s
  | none => "None"

/-- The structured issue payload: the fields the script fills in. The
description document is its single text node. -/
structure IssuePayload where
  projectKey : Option String
  summary : String
  descriptionText : String
  issuetypeId : String
deriving DecidableEq

/-- The outbound POST: URL, payload, and the basic-auth pair. -/
structure PostRequest where
  url : String
  payload : IssuePayload
  authUser : String
  authPass : Option String
deriving DecidableEq

/-- Everything the script does up to the network call, as a function of the
`--email` argument and the environment: the second assignment to `EMAIL`
shadows the parsed argument before `auth` is built. -/
def buildTicketRequest (emailArg : String) (env : TicketEnv) : PostRequest :=
  let EMAIL := emailArg
  let EMAIL := hardcodedEmail
  { url := pyStr env.jsmSite ++ "/rest/api/3/issue"
    payload :=
      { projectKey := env.projectKey
        summary := "Test Incident from API"
        descriptionText := "This incident is created via API for testing."
        issuetypeId := "10049" }
    authUser := EMAIL
    authPass := env.apiToken }

/-- The HTTP response of the issue endpoint as the script reads it:
`status_code`, `response.json()["key"]` (`none` when the body is not JSON or
has no `"key"`), and the raw `response.text`. -/
structure PostResponse where
  status : Nat
  jsonKey : Option String
  text : String
deriving DecidableEq

/-- How the script terminates: a normal exit after printing a line, or an
uncaught exception (traceback, nonzero exit). -/
inductive RunOutcome where
  | normal : String → RunOutcome
  | crash : RunOutcome
deriving DecidableEq

/-- The response handling at the end of the script: on 201 read
`response.json()["key"]` (an absent key raises, uncaught), otherwise print
the raw status code and body. -/
def handleTicketResponse (r : PostResponse) : RunOutcome :=
  if r.status = 201 then
    match r.jsonKey with
    | some k => .normal ("Incident created successfully: " ++ k)
    | none => .crash
  else .normal ("Error: " ++ toString r.status ++ " " ++ r.text)

/-! ## Helper lemmas -/

theorem genTimestamps_lower (f t : Int) : ∀ x ∈ genTimestamps f t, f ≤ x := by
  induction f, t using genTimestamps.induct with
  | case1 f t h ih =>
    rw [genTimestamps]
    simp only [dif_pos h]
    intro x hx
    rcases List.mem_cons.mp hx with rfl | hx
    · exact le_refl x
    · exact le_trans (by omega) (ih x hx)
  | case2 f t h =>
    rw [genTimestamps]
    simp [h]

theorem genTimestamps_pairwise (f t : Int) :
    List.Pairwise (· < ·) (genTimestamps f t) := by
  induction f, t using genTimestamps.induct with
  | case1 f t h ih =>
    rw [genTimestamps]
    simp only [dif_pos h]
    exact List.pairwise_cons.mpr
      ⟨fun x hx => lt_of_lt_of_le (by omega) (genTimestamps_lower _ _ x hx), ih⟩
  | case2 f t h =>
    rw [genTimestamps]
    simp [h]

theorem genTimestamps_nil (f t : Int) (h : t < f) : genTimestamps f t = [] := by
  rw [genTimestamps]
  simp [not_le.mpr h]

theorem isPrefChars_agree : ∀ (l as bs : List Char),
    isPrefChars as l = true → isPrefChars bs l = true →
    isPrefChars as bs = true ∨ isPrefChars bs as = true := by
  intro l
  induction l with
  | nil =>
    intro as bs ha _
    cases as with
    | nil => exact Or.inl rfl
    | cons a as => simp [isPrefChars] at ha
  | cons c l ih =>
    intro as bs ha hb
    cases as with
    | nil => exact Or.inl rfl
    | cons a as' =>
      cases bs with
      | nil => exact Or.inr rfl
      | cons b bs' =>
        simp only [isPrefChars, Bool.and_eq_true, decide_eq_true_eq] at ha hb ⊢
        obtain ⟨hac, ha'⟩ := ha
        obtain ⟨hbc, hb'⟩ := hb
        subst hac
        subst hbc
        rcases ih as' bs' ha' hb' with h | h
        · exact Or.inl ⟨rfl, h⟩
        · exact Or.inr ⟨rfl, h⟩

/-- Two dotted prefixes that are not prefixes of one another cannot both
match a metric name. -/
theorem startsWith_conflict (m p q : String)
    (hpq : isPrefChars p.data q.data = false)
    (hqp : isPrefChars q.data p.data = false)
    (hp : startsWithPy m p = true) : startsWithPy m q = false := by
  by_contra h
  rcases isPrefChars_agree m.data p.data q.data hp
      (Bool.not_eq_false (startsWithPy m q) ▸ h) with h1 | h1
  · rw [hpq] at h1
    exact Bool.false_ne_true h1
  · rw [hqp] at h1
    exact Bool.false_ne_true h1

/-- Every response entry the target loop produces carries the target string
it was produced for. -/
theorem handleTarget_target (env : GatewayEnv) (tss : List Int) (f t : Int)
    (conn : ConnState) (es : ESCollector) (m : String) :
    (handleTarget env tss f t conn es m).1.target = m := by
  unfold handleTarget
  repeat' split
  all_goals try rfl
  all_goals (dsimp only; split <;> rfl)

theorem queryLoop_map_target (env : GatewayEnv) (tss : List Int) (f t : Int)
    (es : ESCollector) :
    ∀ (ms : List String) (conn : ConnState),
      (queryLoop env tss f t es conn ms).1.map (fun r => r.target) = ms := by
  intro ms
  induction ms with
  | nil => intro conn; rfl
  | cons m ms ih =>
    intro conn
    simp only [queryLoop, List.map_cons, handleTarget_target, ih]

/-- Every entry of the loop's output is a `handleTarget` result for some
member of the target list (at some intermediate connection state). -/
theorem queryLoop_mem (env : GatewayEnv) (tss : List Int) (f t : Int)
    (es : ESCollector) :
    ∀ (ms : List String) (conn : ConnState) (r : TSResponse),
      r ∈ (queryLoop env tss f t es conn ms).1 →
      ∃ conn' m, m ∈ ms ∧ r = (handleTarget env tss f t conn' es m).1 := by
  intro ms
  induction ms with
  | nil =>
    intro conn r hr
    simp [queryLoop] at hr
  | cons m ms ih =>
    intro conn r hr
    simp only [queryLoop, List.mem_cons] at hr
    rcases hr with rfl | hr
    · exact ⟨conn, m, List.mem_cons_self m ms, rfl⟩
    · obtain ⟨conn', m', hm', hr'⟩ :=
        ih (handleTarget env tss f t conn es m).2 r hr
      exact ⟨conn', m', List.mem_cons_of_mem m hm', hr'⟩

/-- For an `api.*` target, the datapoint list is either the timestamp grid
decorated with values, or empty (metric key not in the fetched mapping). -/
theorem handleTarget_api_shape (env : GatewayEnv) (tss : List Int) (f t : Int)
    (conn : ConnState) (es : ESCollector) (m : String)
    (hm : startsWithPy m "api." = true) :
    (handleTarget env tss f t conn es m).1.datapoints.map Prod.snd = tss ∨
    (handleTarget env tss f t conn es m).1.datapoints = [] := by
  have hpg : startsWithPy m "postgres." = false :=
    startsWith_conflict m "api." "postgres." (by decide) (by decide) hm
  have hel : startsWithPy m "elastic." = false :=
    startsWith_conflict m "api." "elastic." (by decide) (by decide) hm
  unfold handleTarget
  simp only [hpg, hel, Bool.false_eq_true, if_false]
  split
  · split
    · left; simp [Function.comp_def]
    · right; rfl
  · split
    · split
      · left; simp [Function.comp_def]
      · right; rfl
    · split
      · split
        · left; simp [Function.comp_def]
        · right; rfl
      · right; rfl

/-- A target matching none of the five family prefixes gets an empty
datapoint list. -/
theorem handleTarget_unmatched (env : GatewayEnv) (tss : List Int) (f t : Int)
    (conn : ConnState) (es : ESCollector) (m : String)
    (h1 : startsWithPy m "api.weather." = false)
    (h2 : startsWithPy m "api.crypto." = false)
    (h3 : startsWithPy m "api.github." = false)
    (h4 : startsWithPy m "postgres." = false)
    (h5 : startsWithPy m "elastic." = false) :
    (handleTarget env tss f t conn es m).1.datapoints = [] := by
  unfold handleTarget
  simp only [h1, h2, h3, h4, h5, Bool.false_eq_true, if_false]

/-- The result of the shared PostgreSQL query body is the oracle's rows or
the empty list. -/
theorem pgRunQuery_cases (α : Type) (env : PGEnv) (conn : ConnState) (ok : Bool)
    (rows : List α) :
    (pgRunQuery α env conn ok rows).1 = rows ∨ (pgRunQuery α env conn ok rows).1 = [] := by
  unfold pgRunQuery
  dsimp only
  split
  · split
    · exact Or.inl rfl
    · exact Or.inr rfl
  · exact Or.inr rfl

/-- A `postgres.*` target whose time-series query has no matching rows gets
an empty datapoint list, whatever the connection state. -/
theorem handleTarget_pg_empty (env : GatewayEnv) (tss : List Int) (f t : Int)
    (conn : ConnState) (es : ESCollector) (m : String)
    (hm : startsWithPy m "postgres." = true)
    (hrows : env.pg.tsRows (lastSegment m) f t = []) :
    (handleTarget env tss f t conn es m).1.datapoints = [] := by
  have h1 : startsWithPy m "api.weather." = false :=
    startsWith_conflict m "postgres." "api.weather." (by decide) (by decide) hm
  have h2 : startsWithPy m "api.crypto." = false :=
    startsWith_conflict m "postgres." "api.crypto." (by decide) (by decide) hm
  have h3 : startsWithPy m "api.github." = false :=
    startsWith_conflict m "postgres." "api.github." (by decide) (by decide) hm
  unfold handleTarget
  simp only [h1, h2, h3, hm, Bool.false_eq_true, if_false, if_true]
  rcases pgRunQuery_cases TSRow env.pg conn env.pg.queryOk
      (env.pg.tsRows (lastSegment m) f t) with h | h
  · unfold pg_fetch_time_series
    rw [h, hrows]
    rfl
  · unfold pg_fetch_time_series
    rw [h]
    rfl

/-- An `elastic.*` target whose search returns no buckets gets an empty
datapoint list. -/
theorem handleTarget_es_empty (env : GatewayEnv) (tss : List Int) (f t : Int)
    (conn : ConnState) (es : ESCollector) (m : String)
    (hm : startsWithPy m "elastic." = true)
    (hrows : (es_fetch_time_series env.es es defaultAppIndex (lastSegment m) f t).1 = []) :
    (handleTarget env tss f t conn es m).1.datapoints = [] := by
  have h1 : startsWithPy m "api.weather." = false :=
    startsWith_conflict m "elastic." "api.weather." (by decide) (by decide) hm
  have h2 : startsWithPy m "api.crypto." = false :=
    startsWith_conflict m "elastic." "api.crypto." (by decide) (by decide) hm
  have h3 : startsWithPy m "api.github." = false :=
    startsWith_conflict m "elastic." "api.github." (by decide) (by decide) hm
  have h4 : startsWithPy m "postgres." = false :=
    startsWith_conflict m "elastic." "postgres." (by decide) (by decide) hm
  unfold handleTarget
  simp only [h1, h2, h3, h4, hm, Bool.false_eq_true, if_false, if_true]
  rw [hrows]
  rfl

/-- Dictionary lookup misses every key that no entry carries. -/
theorem lookup_none_of_keys {β : Type} (k : String) (l : List (String × β))
    (h : ∀ kv ∈ l, kv.1 ≠ k) : List.lookup k l = none := by
  induction l with
  | nil => rfl
  | cons kv l ih =>
    obtain ⟨k', v⟩ := kv
    have hne : ¬(k == k') = true := by
      simp only [beq_iff_eq]
      intro hkk
      exact h (k', v) (List.mem_cons_self _ _) (hkk ▸ rfl)
    simp only [List.lookup, Bool.not_eq_true] at hne ⊢
    rw [hne]
    exact ih (fun kv hkv => h kv (List.mem_cons_of_mem _ hkv))

/-- Keys of the weather mapping come from the fixed three-name set. -/
theorem fetch_weather_keys (http : HttpGet → WeatherResponse) :
    ∀ kv ∈ (fetch_weather_data http).1,
      kv.1 ∈ (["temperature", "wind_speed", "humidity"] : List String) := by
  intro kv hkv
  unfold fetch_weather_data at hkv
  split at hkv
  · simp at hkv
  · simp at hkv
  · split at hkv
    · simp at hkv
      rcases hkv with h | h | h <;> simp [h]
    · simp at hkv

/-- Keys of the crypto mapping come from the requested coin list. -/
theorem fetch_crypto_keys (http : HttpGet → CryptoResponse) (coins : List String) :
    ∀ kv ∈ (fetch_crypto_prices http coins).1, kv.1 ∈ coins := by
  intro kv hkv
  unfold fetch_crypto_prices at hkv
  cases hresp : http (cryptoRequest coins) with
  | netError =>
    rw [hresp] at hkv
    simp at hkv
  | body prices =>
    rw [hresp] at hkv
    dsimp only at hkv
    by_cases hall : (coins.all fun c => decide (prices c ≠ some none)) = true
    · rw [if_pos hall] at hkv
      simp only [List.mem_filterMap] at hkv
      obtain ⟨c, hc, heq⟩ := hkv
      cases hp : prices c with
      | none =>
        rw [hp] at heq
        simp at heq
      | some e =>
        cases e with
        | none =>
          rw [hp] at heq
          simp at heq
        | some v =>
          rw [hp] at heq
          simp only [Option.some_bind, Option.map_some', Option.some.injEq] at heq
          subst heq
          exact hc
    · rw [if_neg hall] at hkv
      simp at hkv

/-- Keys of the GitHub mapping come from the fixed four-name set. -/
theorem fetch_github_keys (http : HttpGet → GithubResponse) (repo : String) :
    ∀ kv ∈ (fetch_github_stats http repo).1,
      kv.1 ∈ (["stars", "forks", "open_issues", "watchers"] : List String) := by
  intro kv hkv
  unfold fetch_github_stats at hkv
  split at hkv
  · simp at hkv
  · split at hkv
    · simp at hkv
      rcases hkv with h | h | h | h <;> simp [h]
    · simp at hkv

/-- An `api.weather.*` target whose suffix is not one of the three weather
metric names gets an empty datapoint list, for every upstream answer. -/
theorem handleTarget_weather_unknown (env : GatewayEnv) (tss : List Int) (f t : Int)
    (conn : ConnState) (es : ESCollector) (m : String)
    (hm : startsWithPy m "api.weather." = true)
    (hk : lastSegment m ∉ (["temperature", "wind_speed", "humidity"] : List String)) :
    (handleTarget env tss f t conn es m).1.datapoints = [] := by
  have hlk : List.lookup (lastSegment m) (fetch_weather_data env.weatherHttp).1 = none :=
    lookup_none_of_keys _ _
      (fun kv hkv hkeq => hk (hkeq ▸ fetch_weather_keys env.weatherHttp kv hkv))
  unfold handleTarget
  rw [if_pos hm]
  try dsimp only
  rw [hlk]

/-- An `api.crypto.*` target whose suffix is not a default coin gets an
empty datapoint list, for every upstream answer. -/
theorem handleTarget_crypto_unknown (env : GatewayEnv) (tss : List Int) (f t : Int)
    (conn : ConnState) (es : ESCollector) (m : String)
    (hm : startsWithPy m "api.crypto." = true)
    (hk : lastSegment m ∉ defaultCoins) :
    (handleTarget env tss f t conn es m).1.datapoints = [] := by
  have h1 : startsWithPy m "api.weather." = false :=
    startsWith_conflict m "api.crypto." "api.weather." (by decide) (by decide) hm
  have hlk : List.lookup (lastSegment m) (fetch_crypto_prices env.cryptoHttp defaultCoins).1 = none :=
    lookup_none_of_keys _ _
      (fun kv hkv hkeq => hk (hkeq ▸ fetch_crypto_keys env.cryptoHttp defaultCoins kv hkv))
  unfold handleTarget
  simp only [h1, Bool.false_eq_true, if_false]
  rw [if_pos hm]
  try dsimp only
  rw [hlk]

/-- An `api.github.*` target whose suffix is not one of the four repository
statistics gets an empty datapoint list, for every upstream answer. -/
theorem handleTarget_github_unknown (env : GatewayEnv) (tss : List Int) (f t : Int)
    (conn : ConnState) (es : ESCollector) (m : String)
    (hm : startsWithPy m "api.github." = true)
    (hk : lastSegment m ∉ (["stars", "forks", "open_issues", "watchers"] : List String)) :
    (handleTarget env tss f t conn es m).1.datapoints = [] := by
  have h1 : startsWithPy m "api.weather." = false :=
    startsWith_conflict m "api.github." "api.weather." (by decide) (by decide) hm
  have h2 : startsWithPy m "api.crypto." = false :=
    startsWith_conflict m "api.github." "api.crypto." (by decide) (by decide) hm
  have hlk : List.lookup (lastSegment m) (fetch_github_stats env.githubHttp defaultRepo).1 = none :=
    lookup_none_of_keys _ _
      (fun kv hkv hkeq => hk (hkeq ▸ fetch_github_keys env.githubHttp defaultRepo kv hkv))
  unfold handleTarget
  simp only [h1, h2, Bool.false_eq_true, if_false]
  rw [if_pos hm]
  try dsimp only
  rw [hlk]

/-! ## Concrete test fixtures -/

/-- A search-engine environment whose liveness check answers `False`. -/
def deadESEnv : ESEnv := ⟨some false, fun _ _ => none, fun _ _ _ _ => none, fun _ => none⟩

/-- A gateway environment in which every external collaborator fails. -/
def failEnv : GatewayEnv :=
  { weatherHttp := fun _ => .netError
    cryptoHttp := fun _ => .netError
    githubHttp := fun _ => .netError
    pg := ⟨false, false, fun _ => [], fun _ _ _ => []⟩
    es := deadESEnv }

/-- The environment of the quoted scenario: the price API answers with a
bitcoin quote of 42 USD; everything else fails. -/
def scenarioEnv : GatewayEnv :=
  { failEnv with
    cryptoHttp := fun _ =>
      .body (fun c => if c = "bitcoin" then some (some 42) else none) }

/-- The scenario request: 2024-01-01T00:00:00Z to 2024-01-01T00:10:00Z in
epoch ms, one `api.crypto.bitcoin` target. -/
def scenarioReq : QueryRequest := ⟨1704067200000, 1704067800000, ["api.crypto.bitcoin"]⟩

theorem scenario_timestamps :
    genTimestamps 1704067200000 1704067800000 =
      [1704067200000, 1704067500000, 1704067800000] := by
  simp [genTimestamps]

theorem queryLoop_scenario (tss : List Int) :
    (queryLoop scenarioEnv tss 1704067200000 1704067800000 (esInit deadESEnv)
        ConnState.noneC ["api.crypto.bitcoin"]).1.map
      (fun r => (r.target, r.datapoints.map Prod.snd)) =
      [("api.crypto.bitcoin", tss)] := by
  simp [queryLoop, handleTarget, startsWithPy, isPrefChars, lastSegment, lastSegChars,
    fetch_crypto_prices, cryptoRequest, defaultCoins, scenarioEnv, failEnv, List.lookup,
    Function.comp_def]

theorem scenario_response :
    (query scenarioEnv ConnState.noneC (esInit deadESEnv) scenarioReq).1.map
        (fun r => (r.target, r.datapoints.map Prod.snd)) =
      [("api.crypto.bitcoin", [1704067200000, 1704067500000, 1704067800000])] := by
  unfold query
  simp only [scenarioReq]
  rw [scenario_timestamps]
  exact queryLoop_scenario _

/-- A request for one weather metric over the degenerate range `[0, 0]`. -/
def req0 : QueryRequest := ⟨0, 0, ["api.weather.temperature"]⟩

theorem req0_eval :
    (query failEnv ConnState.noneC (esInit deadESEnv) req0).1 =
      [⟨"api.weather.temperature", []⟩] := by
  unfold query
  simp only [req0]
  rw [show genTimestamps 0 0 = [0] by simp [genTimestamps]]
  simp [queryLoop, handleTarget, startsWithPy, isPrefChars, lastSegment, lastSegChars,
    fetch_weather_data, weatherRequest, failEnv, List.lookup]

/-- A request mixing an unmatched prefix with `postgres.*` and `elastic.*`
targets, against the all-failing environment. -/
def reqMixed : QueryRequest := ⟨0, 0, ["unknown.thing", "postgres.cpu_usage", "elastic.total_logs"]⟩

theorem reqMixed_eval :
    (query failEnv ConnState.noneC (esInit deadESEnv) reqMixed).1 =
      [⟨"unknown.thing", []⟩, ⟨"postgres.cpu_usage", []⟩, ⟨"elastic.total_logs", []⟩] := by
  unfold query
  simp only [reqMixed]
  rw [show genTimestamps 0 0 = [0] by simp [genTimestamps]]
  simp [queryLoop, handleTarget, startsWithPy, isPrefChars, lastSegment, lastSegChars,
    failEnv, deadESEnv, pg_fetch_time_series, pgRunQuery, needsConnect, pgConnect,
    es_fetch_time_series, esInit]

/-- The scenario request with its range reversed (`from` after `to`). -/
def reqRev : QueryRequest := ⟨1704067800000, 1704067200000, ["api.crypto.bitcoin"]⟩

theorem reqRev_eval :
    (query scenarioEnv ConnState.noneC (esInit deadESEnv) reqRev).1 =
      [⟨"api.crypto.bitcoin", []⟩] := by
  unfold query
  simp only [reqRev]
  rw [genTimestamps_nil _ _ (by norm_num)]
  simp [queryLoop, handleTarget, startsWithPy, isPrefChars, lastSegment, lastSegChars,
    fetch_crypto_prices, cryptoRequest, defaultCoins, scenarioEnv, failEnv, List.lookup]

/-- A request for a coin outside the default set, against the scenario
environment (whose upstream quotes bitcoin). -/
def reqDoge : QueryRequest := ⟨0, 0, ["api.crypto.dogecoin"]⟩

theorem reqDoge_eval :
    (query scenarioEnv ConnState.noneC (esInit deadESEnv) reqDoge).1 =
      [⟨"api.crypto.dogecoin", []⟩] := by
  unfold query
  simp only [reqDoge]
  rw [show genTimestamps 0 0 = [0] by simp [genTimestamps]]
  simp [queryLoop, handleTarget, startsWithPy, isPrefChars, lastSegment, lastSegChars,
    fetch_crypto_prices, cryptoRequest, defaultCoins, scenarioEnv, failEnv, List.lookup]


/-! ## Claims -/

/-- C1: For every well-formed `/query` request, the response is an array
with exactly one entry per input target, and the i-th entry's `target`
field echoes the i-th input target string exactly: mapping the `target`
field over the response reproduces the input target list, and the lengths
agree. -/
theorem C1_response_echoes_targets (env : GatewayEnv) (pgConn : ConnState)
    (esColl : ESCollector) (req : QueryRequest) :
    (query env pgConn esColl req).1.map (fun r => r.target) = req.targets ∧
    (query env pgConn esColl req).1.length = req.targets.length := by
  have h := queryLoop_map_target env (genTimestamps req.fromMs req.toMs)
    req.fromMs req.toMs esColl req.targets pgConn
  refine ⟨h, ?_⟩
  rw [← h]
  exact (List.length_map _ _).symm

/-- C2: For every well-formed request and every response entry whose target
has prefix `api.`, each returned datapoint's timestamp is a member of the
generated timestamp grid that starts at `from` and advances in fixed
5-minute steps up to and including `to`, and the datapoint timestamps are
strictly increasing; in particular the range 2024-01-01T00:00:00Z to
2024-01-01T00:10:00Z with target `api.crypto.bitcoin` (upstream returning a
bitcoin price) yields exactly one entry with exactly three datapoints, at
minutes 0, 5 and 10. -/
theorem C2_api_timestamps_on_grid :
    (∀ (env : GatewayEnv) (pgConn : ConnState) (esColl : ESCollector)
        (req : QueryRequest), ∀ r ∈ (query env pgConn esColl req).1,
        startsWithPy r.target "api." = true →
        (∀ p ∈ r.datapoints, p.2 ∈ genTimestamps req.fromMs req.toMs) ∧
        List.Pairwise (· < ·) (r.datapoints.map Prod.snd)) ∧
    (query scenarioEnv ConnState.noneC (esInit deadESEnv) scenarioReq).1.map
        (fun r => (r.target, r.datapoints.map Prod.snd)) =
      [("api.crypto.bitcoin", [1704067200000, 1704067500000, 1704067800000])] := by
  constructor
  · intro env pgConn esColl req r hr hapi
    obtain ⟨conn', m, hm, rfl⟩ := queryLoop_mem env _ _ _ esColl req.targets pgConn r hr
    rw [handleTarget_target] at hapi
    rcases handleTarget_api_shape env (genTimestamps req.fromMs req.toMs) req.fromMs
        req.toMs conn' esColl m hapi with hsh | hsh
    · constructor
      · intro p hp
        rw [← hsh]
        exact List.mem_map_of_mem Prod.snd hp
      · rw [hsh]
        exact genTimestamps_pairwise _ _
    · rw [hsh]
      constructor
      · intro p hp
        simp at hp
      · simp
  · exact scenario_response

/-- Witness for C2: the general part applied to the all-failing environment
and a concrete `api.weather.temperature` request over `[0, 0]`. -/
theorem C2_api_timestamps_on_grid_witness :
    ((⟨"api.weather.temperature", []⟩ : TSResponse) ∈
        (query failEnv ConnState.noneC (esInit deadESEnv) req0).1) ∧
    startsWithPy "api.weather.temperature" "api." = true ∧
    ((∀ p ∈ ((⟨"api.weather.temperature", []⟩ : TSResponse)).datapoints,
        p.2 ∈ genTimestamps req0.fromMs req0.toMs) ∧
      List.Pairwise (· < ·)
        (((⟨"api.weather.temperature", []⟩ : TSResponse)).datapoints.map Prod.snd)) := by
  have hmem : (⟨"api.weather.temperature", []⟩ : TSResponse) ∈
      (query failEnv ConnState.noneC (esInit deadESEnv) req0).1 := by
    rw [req0_eval]
    exact List.mem_singleton_self _
  exact ⟨hmem, by decide,
    C2_api_timestamps_on_grid.1 failEnv ConnState.noneC (esInit deadESEnv) req0 _
      hmem (by decide)⟩

/-- C3: A response entry whose target matches no connector family has
`datapoints = []` (never absent: the entry is still present); a
`postgres.*` or `elastic.*` entry whose connector produces no rows has
`datapoints = []`; and the request as a whole still succeeds, returning one
entry per target. -/
theorem C3_empty_datapoints_not_error (env : GatewayEnv) (pgConn : ConnState)
    (esColl : ESCollector) (req : QueryRequest) :
    (∀ r ∈ (query env pgConn esColl req).1,
      (startsWithPy r.target "api.weather." = false →
        startsWithPy r.target "api.crypto." = false →
        startsWithPy r.target "api.github." = false →
        startsWithPy r.target "postgres." = false →
        startsWithPy r.target "elastic." = false → r.datapoints = []) ∧
      (startsWithPy r.target "postgres." = true →
        env.pg.tsRows (lastSegment r.target) req.fromMs req.toMs = [] →
        r.datapoints = []) ∧
      (startsWithPy r.target "elastic." = true →
        (es_fetch_time_series env.es esColl defaultAppIndex (lastSegment r.target)
          req.fromMs req.toMs).1 = [] → r.datapoints = [])) ∧
    (query env pgConn esColl req).1.map (fun r => r.target) = req.targets := by
  constructor
  · intro r hr
    obtain ⟨conn', m, hm, rfl⟩ := queryLoop_mem env _ _ _ esColl req.targets pgConn r hr
    rw [handleTarget_target]
    refine ⟨?_, ?_, ?_⟩
    · intro h1 h2 h3 h4 h5
      exact handleTarget_unmatched env _ _ _ conn' esColl m h1 h2 h3 h4 h5
    · intro hm' hrows
      exact handleTarget_pg_empty env _ _ _ conn' esColl m hm' hrows
    · intro hm' hrows
      exact handleTarget_es_empty env _ _ _ conn' esColl m hm' hrows
  · exact queryLoop_map_target env _ _ _ esColl req.targets pgConn

/-- Witness for C3: the mixed request against the all-failing environment;
the unmatched, `postgres.*` and `elastic.*` entries all carry `[]`. -/
theorem C3_empty_datapoints_not_error_witness :
    ((⟨"unknown.thing", []⟩ : TSResponse) ∈
        (query failEnv ConnState.noneC (esInit deadESEnv) reqMixed).1) ∧
    ((⟨"unknown.thing", []⟩ : TSResponse)).datapoints = [] ∧
    ((⟨"postgres.cpu_usage", []⟩ : TSResponse)).datapoints = [] ∧
    ((⟨"elastic.total_logs", []⟩ : TSResponse)).datapoints = [] := by
  have hm1 : (⟨"unknown.thing", []⟩ : TSResponse) ∈
      (query failEnv ConnState.noneC (esInit deadESEnv) reqMixed).1 := by
    rw [reqMixed_eval]
    exact List.mem_cons_self _ _
  have hm2 : (⟨"postgres.cpu_usage", []⟩ : TSResponse) ∈
      (query failEnv ConnState.noneC (esInit deadESEnv) reqMixed).1 := by
    rw [reqMixed_eval]
    simp
  have hm3 : (⟨"elastic.total_logs", []⟩ : TSResponse) ∈
      (query failEnv ConnState.noneC (esInit deadESEnv) reqMixed).1 := by
    rw [reqMixed_eval]
    simp
  refine ⟨hm1, ?_, ?_, ?_⟩
  · exact ((C3_empty_datapoints_not_error failEnv ConnState.noneC (esInit deadESEnv)
      reqMixed).1 _ hm1).1 (by decide) (by decide) (by decide) (by decide) (by decide)
  · exact ((C3_empty_datapoints_not_error failEnv ConnState.noneC (esInit deadESEnv)
      reqMixed).1 _ hm2).2.1 (by decide) rfl
  · exact ((C3_empty_datapoints_not_error failEnv ConnState.noneC (esInit deadESEnv)
      reqMixed).1 _ hm3).2.2 (by decide) rfl

/-- C9: A response entry for `api.crypto.X` with `X` outside the default
coin set (and analogously `api.weather.X` outside the three weather metric
names, `api.github.X` outside the four repository statistics) has empty
datapoints regardless of the time range, because the gateway always calls
the API connectors with their defaults and only looks up the last
dot-segment in the returned mapping. -/
theorem C9_default_params_only (env : GatewayEnv) (pgConn : ConnState)
    (esColl : ESCollector) (req : QueryRequest) :
    ∀ r ∈ (query env pgConn esColl req).1,
      (startsWithPy r.target "api.crypto." = true →
        lastSegment r.target ∉ defaultCoins → r.datapoints = []) ∧
      (startsWithPy r.target "api.weather." = true →
        lastSegment r.target ∉ (["temperature", "wind_speed", "humidity"] : List String) →
        r.datapoints = []) ∧
      (startsWithPy r.target "api.github." = true →
        lastSegment r.target ∉ (["stars", "forks", "open_issues", "watchers"] : List String) →
        r.datapoints = []) := by
  intro r hr
  obtain ⟨conn', m, hm, rfl⟩ := queryLoop_mem env _ _ _ esColl req.targets pgConn r hr
  rw [handleTarget_target]
  exact ⟨fun h hk => handleTarget_crypto_unknown env _ _ _ conn' esColl m h hk,
    fun h hk => handleTarget_weather_unknown env _ _ _ conn' esColl m h hk,
    fun h hk => handleTarget_github_unknown env _ _ _ conn' esColl m h hk⟩

/-- Witness for C9: `api.crypto.dogecoin` against an upstream that quotes
bitcoin; the entry's datapoints are empty. -/
theorem C9_default_params_only_witness :
    ((⟨"api.crypto.dogecoin", []⟩ : TSResponse) ∈
        (query scenarioEnv ConnState.noneC (esInit deadESEnv) reqDoge).1) ∧
    startsWithPy "api.crypto.dogecoin" "api.crypto." = true ∧
    lastSegment "api.crypto.dogecoin" ∉ defaultCoins ∧
    ((⟨"api.crypto.dogecoin", []⟩ : TSResponse)).datapoints = [] := by
  have hmem : (⟨"api.crypto.dogecoin", []⟩ : TSResponse) ∈
      (query scenarioEnv ConnState.noneC (esInit deadESEnv) reqDoge).1 := by
    rw [reqDoge_eval]
    exact List.mem_singleton_self _
  exact ⟨hmem, by decide, by decide,
    (C9_default_params_only scenarioEnv ConnState.noneC (esInit deadESEnv) reqDoge _
      hmem).1 (by decide) (by decide)⟩

/-- C10: When `range.from` is strictly later than `range.to`, the generated
timestamp sequence is empty, so every `api.*` entry's datapoints list is
empty; the request is not rejected, and the response still has exactly one
entry per input target. -/
theorem C10_reversed_range (env : GatewayEnv) (pgConn : ConnState)
    (esColl : ESCollector) (req : QueryRequest) (h : req.toMs < req.fromMs) :
    genTimestamps req.fromMs req.toMs = [] ∧
    (∀ r ∈ (query env pgConn esColl req).1,
      startsWithPy r.target "api." = true → r.datapoints = []) ∧
    (query env pgConn esColl req).1.map (fun r => r.target) = req.targets := by
  have hnil := genTimestamps_nil req.fromMs req.toMs h
  refine ⟨hnil, ?_, queryLoop_map_target env _ _ _ esColl req.targets pgConn⟩
  intro r hr hapi
  obtain ⟨conn', m, hm, rfl⟩ := queryLoop_mem env _ _ _ esColl req.targets pgConn r hr
  rw [handleTarget_target] at hapi
  rcases handleTarget_api_shape env (genTimestamps req.fromMs req.toMs) req.fromMs
      req.toMs conn' esColl m hapi with hsh | hsh
  · exact List.map_eq_nil_iff.mp (hsh.trans hnil)
  · exact hsh

/-- Witness for C10: the reversed scenario range with target
`api.crypto.bitcoin`, against an upstream that does quote bitcoin. -/
theorem C10_reversed_range_witness :
    reqRev.toMs < reqRev.fromMs ∧
    genTimestamps reqRev.fromMs reqRev.toMs = [] ∧
    ((⟨"api.crypto.bitcoin", []⟩ : TSResponse) ∈
        (query scenarioEnv ConnState.noneC (esInit deadESEnv) reqRev).1) ∧
    ((⟨"api.crypto.bitcoin", []⟩ : TSResponse)).datapoints = [] ∧
    (query scenarioEnv ConnState.noneC (esInit deadESEnv) reqRev).1.map
      (fun r => r.target) = reqRev.targets := by
  have hlt : reqRev.toMs < reqRev.fromMs := by norm_num [reqRev]
  have hmem : (⟨"api.crypto.bitcoin", []⟩ : TSResponse) ∈
      (query scenarioEnv ConnState.noneC (esInit deadESEnv) reqRev).1 := by
    rw [reqRev_eval]
    exact List.mem_singleton_self _
  obtain ⟨h1, h2, h3⟩ :=
    C10_reversed_range scenarioEnv ConnState.noneC (esInit deadESEnv) reqRev hlt
  exact ⟨hlt, h1, hmem, h2 _ hmem (by decide), h3⟩


/-- C4: Each API-family connector (weather, crypto, GitHub) issues exactly
one outbound HTTP GET, whose timeout is the fixed 10, and performs no
retry; on network failure/timeout (`netError`) or a response missing an
expected field it returns the empty mapping. Each connector is a total
function of its oracle, modelling that no exception escapes its boundary. -/
theorem C4_api_connectors_failure_policy :
    (∀ http : HttpGet → WeatherResponse,
      (fetch_weather_data http).2 = [weatherRequest] ∧ weatherRequest.timeout = 10 ∧
      (http weatherRequest = .netError → (fetch_weather_data http).1 = []) ∧
      (http weatherRequest = .body none → (fetch_weather_data http).1 = []) ∧
      (∀ c, http weatherRequest = .body (some c) →
        c.temperature_2m = none ∨ c.wind_speed_10m = none ∨
          c.relative_humidity_2m = none →
        (fetch_weather_data http).1 = [])) ∧
    (∀ (http : HttpGet → CryptoResponse) (coins : List String),
      (fetch_crypto_prices http coins).2 = [cryptoRequest coins] ∧
      (cryptoRequest coins).timeout = 10 ∧
      (http (cryptoRequest coins) = .netError → (fetch_crypto_prices http coins).1 = []) ∧
      (∀ prices, http (cryptoRequest coins) = .body prices →
        (∃ c ∈ coins, prices c = some none) → (fetch_crypto_prices http coins).1 = [])) ∧
    (∀ (http : HttpGet → GithubResponse) (repo : String),
      (fetch_github_stats http repo).2 = [githubRequest repo] ∧
      (githubRequest repo).timeout = 10 ∧
      (http (githubRequest repo) = .netError → (fetch_github_stats http repo).1 = []) ∧
      (∀ d, http (githubRequest repo) = .body d →
        d.stargazers_count = none ∨ d.forks_count = none ∨
          d.open_issues_count = none ∨ d.watchers_count = none →
        (fetch_github_stats http repo).1 = [])) := by
  refine ⟨fun http => ⟨?_, rfl, ?_, ?_, ?_⟩,
    fun http coins => ⟨?_, rfl, ?_, ?_⟩,
    fun http repo => ⟨?_, rfl, ?_, ?_⟩⟩
  · unfold fetch_weather_data
    repeat' split
    all_goals rfl
  · intro h
    unfold fetch_weather_data
    rw [h]
  · intro h
    unfold fetch_weather_data
    rw [h]
  · intro c h hmiss
    unfold fetch_weather_data
    rw [h]
    dsimp only
    rcases hmiss with h1 | h1 | h1
    · rw [h1]
    · rw [h1]
      cases c.temperature_2m <;> rfl
    · rw [h1]
      cases c.temperature_2m <;> cases c.wind_speed_10m <;> rfl
  · unfold fetch_crypto_prices
    repeat' split
    all_goals rfl
  · intro h
    unfold fetch_crypto_prices
    rw [h]
  · intro prices hp hex
    obtain ⟨c, hc, hcn⟩ := hex
    unfold fetch_crypto_prices
    rw [hp]
    dsimp only
    have hall : (coins.all fun c => decide (prices c ≠ some none)) = false := by
      rw [List.all_eq_false]
      refine ⟨c, hc, ?_⟩
      simp [hcn]
    rw [if_neg (by rw [hall]; exact Bool.false_ne_true)]
  · unfold fetch_github_stats
    repeat' split
    all_goals rfl
  · intro h
    unfold fetch_github_stats
    rw [h]
  · intro d h hmiss
    unfold fetch_github_stats
    rw [h]
    dsimp only
    rcases hmiss with h1 | h1 | h1 | h1
    · rw [h1]
    · rw [h1]
      cases d.stargazers_count <;> rfl
    · rw [h1]
      cases d.stargazers_count <;> cases d.forks_count <;> rfl
    · rw [h1]
      cases d.stargazers_count <;> cases d.forks_count <;>
        cases d.open_issues_count <;> rfl

/-- Witness for C4: concrete all-failing oracles; each connector issues its
single GET with timeout 10 and returns the empty mapping. -/
theorem C4_api_connectors_failure_policy_witness :
    ((fetch_weather_data fun _ => .netError).2 = [weatherRequest] ∧
      (fetch_weather_data fun _ => .netError).1 = []) ∧
    ((fetch_crypto_prices (fun _ => .netError) defaultCoins).2 =
        [cryptoRequest defaultCoins] ∧
      (fetch_crypto_prices (fun _ => .netError) defaultCoins).1 = []) ∧
    ((fetch_github_stats (fun _ => .netError) defaultRepo).2 =
        [githubRequest defaultRepo] ∧
      (fetch_github_stats (fun _ => .netError) defaultRepo).1 = []) := by
  obtain ⟨hw, hc, hg⟩ := C4_api_connectors_failure_policy
  obtain ⟨hw1, -, hw3, -, -⟩ := hw (fun _ => WeatherResponse.netError)
  obtain ⟨hc1, -, hc3, -⟩ := hc (fun _ => CryptoResponse.netError) defaultCoins
  obtain ⟨hg1, -, hg3, -⟩ := hg (fun _ => GithubResponse.netError) defaultRepo
  exact ⟨⟨hw1, hw3 rfl⟩, ⟨hc1, hc3 rfl⟩, ⟨hg1, hg3 rfl⟩⟩

/-- C5: If the construction-time liveness check fails (ping answers false,
or construction/ping raises), the collector's `connected` flag is false;
the fetch operations never write the flag (they return no new collector),
so it stays false for the process lifetime, and every call on a
disconnected collector returns the empty result immediately, issuing zero
search-engine calls. -/
theorem C5_es_permanently_disconnected (env : ESEnv)
    (h : env.ping = some false ∨ env.ping = none) :
    (esInit env).connected = false ∧
    (∀ (st : ESCollector), st.connected = false →
      ∀ (index tf mf : String) (f t : Int),
        fetch_log_metrics env st index tf = ([], 0) ∧
        es_fetch_time_series env st index mf f t = ([], 0) ∧
        fetch_application_metrics env st index = ([], 0)) := by
  constructor
  · rcases h with h | h <;> simp [esInit, h]
  · intro st hst index tf mf f t
    refine ⟨?_, ?_, ?_⟩
    · unfold fetch_log_metrics
      rw [hst]
      rfl
    · unfold es_fetch_time_series
      rw [hst]
      rfl
    · unfold fetch_application_metrics
      rw [hst]
      rfl

/-- Witness for C5: the dead search-engine environment; the collector built
from it is disconnected and all three fetches return empty without a
search call. -/
theorem C5_es_permanently_disconnected_witness :
    (deadESEnv.ping = some false ∨ deadESEnv.ping = none) ∧
    (esInit deadESEnv).connected = false ∧
    fetch_log_metrics deadESEnv (esInit deadESEnv) defaultLogIndex "@timestamp" = ([], 0) ∧
    es_fetch_time_series deadESEnv (esInit deadESEnv) defaultAppIndex "cpu" 0 0 = ([], 0) ∧
    fetch_application_metrics deadESEnv (esInit deadESEnv) defaultAppIndex = ([], 0) := by
  have h := C5_es_permanently_disconnected deadESEnv (Or.inl rfl)
  obtain ⟨h1, h2⟩ := h
  obtain ⟨ha, hb, hc⟩ := h2 (esInit deadESEnv) h1 defaultLogIndex "@timestamp" "cpu" 0 0
  exact ⟨Or.inl rfl, h1, ha, hb, hc⟩

/-- C6: For both PostgreSQL read operations: when the handle is absent or
reports closed and connecting succeeds, a fresh open connection is in
place before the query runs (and is the state left behind); any error
during connection or query execution is caught at the boundary and yields
the empty list — the same observable as a legitimately empty result set. -/
theorem C6_pg_reconnect_and_error_swallowing (env : PGEnv) (conn : ConnState)
    (q : Option String) (name : String) (f t : Int) :
    (needsConnect conn = true → env.connectOk = true →
      (fetch_metrics env conn q).2 = ConnState.openC ∧
      (pg_fetch_time_series env conn name f t).2 = ConnState.openC) ∧
    (needsConnect conn = true → env.connectOk = false →
      (fetch_metrics env conn q).1 = [] ∧
      (pg_fetch_time_series env conn name f t).1 = []) ∧
    (env.queryOk = false →
      (fetch_metrics env conn q).1 = [] ∧
      (pg_fetch_time_series env conn name f t).1 = []) ∧
    (env.tsRows name f t = [] → (pg_fetch_time_series env conn name f t).1 = []) := by
  have hconn2 : ∀ (α : Type) (ok : Bool) (rows : List α),
      needsConnect conn = true → env.connectOk = true →
      (pgRunQuery α env conn ok rows).2 = ConnState.openC := by
    intro α ok rows hc hok
    unfold pgRunQuery pgConnect
    rw [hc, if_pos rfl, if_pos hok]
    cases ok <;> rfl
  have hcfail : ∀ (α : Type) (ok : Bool) (rows : List α),
      needsConnect conn = true → env.connectOk = false →
      (pgRunQuery α env conn ok rows).1 = [] := by
    intro α ok rows hc hok
    unfold pgRunQuery pgConnect
    rw [hc, if_pos rfl, hok]
    cases conn with
    | noneC => rfl
    | openC => simp [needsConnect] at hc
    | closedC => rfl
  have hqfail : ∀ (α : Type) (rows : List α),
      env.queryOk = false → (pgRunQuery α env conn env.queryOk rows).1 = [] := by
    intro α rows hq
    unfold pgRunQuery
    dsimp only
    split
    · rw [hq]
      rfl
    · rfl
  refine ⟨fun hc hok => ⟨hconn2 _ _ _ hc hok, hconn2 _ _ _ hc hok⟩,
    fun hc hok => ⟨hcfail _ _ _ hc hok, hcfail _ _ _ hc hok⟩,
    fun hq => ⟨hqfail _ _ hq, hqfail _ _ hq⟩,
    fun hrows => ?_⟩
  unfold pg_fetch_time_series
  rcases pgRunQuery_cases TSRow env conn env.queryOk (env.tsRows name f t) with h | h
  · rw [h, hrows]
  · rw [h]

/-- Witness for C6: a database that connects and answers but holds no rows,
starting from an absent handle; and the all-failing database. -/
theorem C6_pg_reconnect_and_error_swallowing_witness :
    needsConnect ConnState.noneC = true ∧
    (let okEnv : PGEnv := ⟨true, true, fun _ => [], fun _ _ _ => []⟩;
      (fetch_metrics okEnv ConnState.noneC none).2 = ConnState.openC ∧
      (pg_fetch_time_series okEnv ConnState.noneC "cpu_usage" 0 0).2 = ConnState.openC ∧
      (pg_fetch_time_series okEnv ConnState.noneC "cpu_usage" 0 0).1 = []) ∧
    ((fetch_metrics failEnv.pg ConnState.noneC none).1 = [] ∧
      (pg_fetch_time_series failEnv.pg ConnState.noneC "cpu_usage" 0 0).1 = []) := by
  refine ⟨rfl, ?_, ?_⟩
  · obtain ⟨h1, -, -, h4⟩ := C6_pg_reconnect_and_error_swallowing
      ⟨true, true, fun _ => [], fun _ _ _ => []⟩ ConnState.noneC none "cpu_usage" 0 0
    obtain ⟨ha, hb⟩ := h1 rfl rfl
    exact ⟨ha, hb, h4 rfl⟩
  · obtain ⟨-, h2, -, -⟩ := C6_pg_reconnect_and_error_swallowing
      failEnv.pg ConnState.noneC none "cpu_usage" 0 0
    exact h2 rfl rfl

/-- C7: If the POST answers HTTP 201 with a JSON body carrying key `K`, the
filer reports `K` as the created ticket identifier; for every other status
it prints the raw status code and response body; in both cases the run
ends normally (no uncaught exception). -/
theorem C7_ticket_filer_reporting (r : PostResponse) :
    (∀ k, r.status = 201 → r.jsonKey = some k →
      handleTicketResponse r = .normal ("Incident created successfully: " ++ k)) ∧
    (r.status ≠ 201 →
      handleTicketResponse r = .normal ("Error: " ++ toString r.status ++ " " ++ r.text)) := by
  constructor
  · intro k h hk
    unfold handleTicketResponse
    rw [if_pos h, hk]
  · intro h
    unfold handleTicketResponse
    rw [if_neg h]

/-- Witness for C7: a 201 response with body key `PROJ-123`, and a 400
response; both runs end normally. -/
theorem C7_ticket_filer_reporting_witness :
    handleTicketResponse ⟨201, some "PROJ-123", ""⟩ =
      .normal ("Incident created successfully: " ++ "PROJ-123") ∧
    handleTicketResponse ⟨400, none, "bad request"⟩ =
      .normal ("Error: " ++ toString (400 : Nat) ++ " " ++ "bad request") := by
  exact ⟨(C7_ticket_filer_reporting ⟨201, some "PROJ-123", ""⟩).1 "PROJ-123" rfl rfl,
    (C7_ticket_filer_reporting ⟨400, none, "bad request"⟩).2 (by decide)⟩

/-- C8: The required `--email` argument has no effect on behaviour: two
runs differing only in the email value build identical outbound requests
(identical URL, payload and basic-auth credentials), the auth user being
the hard-coded address that unconditionally overwrites `EMAIL`. -/
theorem C8_email_argument_ignored (e1 e2 : String) (env : TicketEnv) :
    buildTicketRequest e1 env = buildTicketRequest e2 env ∧
    (buildTicketRequest e1 env).authUser = hardcodedEmail :=
  ⟨rfl, rfl⟩
